import Mathlib

/-!
Shallow embedding of the oliv_backend conversational dispatcher and its
helpers, together with proofs about the behaviours its specification
describes.  Python strings are modelled as Lean `String`/`List Char`,
Python `None` as `Option.none`, Python numbers as `ℚ` (budgets, prices)
and `Int` (bedroom counts), and Python dictionaries as ordered
association lists with CPython's insertion-order update semantics.
Fallible library calls (`json.loads`, the network calls, `model.predict`)
are modelled with `Option`.  Recursion over input text uses explicit fuel
so that every definition is executable and evaluates by `decide`/`rfl`.
-/

namespace Oliv

/-! ### Python string primitives

`pyIsSpace` covers the code points stripped by CPython's `str.strip()`
(the `str.isspace` set).  `pyReplaceEmpty` is `str.replace(pat, "")`:
a left-to-right scan removing non-overlapping occurrences, continuing
after each removal.  `hasSub` is substring occurrence, phrased with the
same prefix test that `pyReplaceEmpty` scans with. -/

def btChar : Char := Char.ofNat 96

def pySpaceCodes : List Nat :=
  [9, 10, 11, 12, 13, 28, 29, 30, 31, 32, 0x85, 0xA0, 0x1680,
   0x2000, 0x2001, 0x2002, 0x2003, 0x2004, 0x2005, 0x2006, 0x2007,
   0x2008, 0x2009, 0x200A, 0x2028, 0x2029, 0x202F, 0x205F, 0x3000]

def pyIsSpace (c : Char) : Bool := pySpaceCodes.contains c.toNat

def pyStripChars (s : List Char) : List Char :=
  ((s.dropWhile pyIsSpace).reverse.dropWhile pyIsSpace).reverse

def pyStrip (s : String) : String := String.mk (pyStripChars s.data)

def pyReplaceEmptyF (pat : List Char) : Nat → List Char → List Char
  | 0, s => s
  | _ + 1, [] => []
  | fuel + 1, c :: cs =>
    if !pat.isEmpty && pat.isPrefixOf (c :: cs) then
      pyReplaceEmptyF pat fuel (List.drop pat.length (c :: cs))
    else
      c :: pyReplaceEmptyF pat fuel cs

def pyReplaceEmpty (pat s : List Char) : List Char := pyReplaceEmptyF pat s.length s

def hasSub (pat : List Char) : List Char → Bool
  | [] => false
  | c :: cs => (!pat.isEmpty && pat.isPrefixOf (c :: cs)) || hasSub pat cs

def fenceJsonChars : List Char := "```json".data

def fenceChars : List Char := "```".data

/-- Embeds `clean_json_content` (src/perplexity_search.py lines 59-62):
`content.replace("```json", "").replace("```", "").strip()`. -/
def clean_json_content (content : String) : String :=
  String.mk (pyStripChars (pyReplaceEmpty fenceChars (pyReplaceEmpty fenceJsonChars content.data)))

/-! ### JSON values and a model of `json.loads`

The parser follows CPython's strict `json.loads`: JSON whitespace is
space/tab/newline/carriage-return; numbers follow the JSON grammar and
are kept as their lexeme; `NaN`/`Infinity`/`-Infinity` are accepted;
strings handle the standard escapes including `\uXXXX` surrogate pairs
(a lone surrogate, unrepresentable in a Lean `Char`, falls back to
`Char.ofNat`'s default — no claim depends on that corner); object keys
follow dict semantics (later duplicate wins, first insertion order). -/

inductive Json where
  | null : Json
  | bool (b : Bool) : Json
  | num (lexeme : String) : Json
  | str (s : String) : Json
  | arr (elems : List Json) : Json
  | obj (fields : List (String × Json)) : Json
  | nanV : Json
  | infV : Json
  | ninfV : Json

def jsonWsChar (c : Char) : Bool := c == ' ' || c == '\t' || c == '\n' || c == '\r'

def skipJsonWs (cs : List Char) : List Char := cs.dropWhile jsonWsChar

def hexVal (c : Char) : Option Nat :=
  if c.isDigit then some (c.toNat - 48)
  else if decide ('a' ≤ c) && decide (c ≤ 'f') then some (c.toNat - 87)
  else if decide ('A' ≤ c) && decide (c ≤ 'F') then some (c.toNat - 55)
  else none

def hex4 (cs : List Char) : Option (Nat × List Char) :=
  match cs with
  | a :: b :: c :: d :: rest =>
    match hexVal a, hexVal b, hexVal c, hexVal d with
    | some x, some y, some z, some w => some (((x * 16 + y) * 16 + z) * 16 + w, rest)
    | _, _, _, _ => none
  | _ => none

def parseStringBody : Nat → List Char → Option (List Char × List Char)
  | 0, _ => none
  | _ + 1, [] => none
  | fuel + 1, c :: cs =>
    let cont : Char → List Char → Option (List Char × List Char) := fun ch rest =>
      (parseStringBody fuel rest).map (fun r => (ch :: r.1, r.2))
    if c == '"' then some ([], cs)
    else if c == '\\' then
      match cs with
      | [] => none
      | e :: cs2 =>
        if e == '"' then cont '"' cs2
        else if e == '\\' then cont '\\' cs2
        else if e == '/' then cont '/' cs2
        else if e == 'b' then cont (Char.ofNat 8) cs2
        else if e == 'f' then cont (Char.ofNat 12) cs2
        else if e == 'n' then cont '\n' cs2
        else if e == 'r' then cont '\r' cs2
        else if e == 't' then cont '\t' cs2
        else if e == 'u' then
          match hex4 cs2 with
          | none => none
          | some (n, cs3) =>
            if 0xD800 ≤ n ∧ n ≤ 0xDBFF then
              match cs3 with
              | '\\' :: 'u' :: cs4 =>
                match hex4 cs4 with
                | some (m, cs5) =>
                  if 0xDC00 ≤ m ∧ m ≤ 0xDFFF then
                    cont (Char.ofNat (0x10000 + (n - 0xD800) * 0x400 + (m - 0xDC00))) cs5
                  else cont (Char.ofNat n) cs3
                | none => cont (Char.ofNat n) cs3
              | _ => cont (Char.ofNat n) cs3
            else cont (Char.ofNat n) cs3
        else none
    else if c.toNat < 32 then none
    else cont c cs

def parseNumTail (lexsofar : List Char) (cs : List Char) : Option (String × List Char) :=
  let fr : List Char × List Char :=
    match cs with
    | '.' :: r =>
      let ds := r.takeWhile Char.isDigit
      if ds = [] then ([], cs) else ('.' :: ds, r.drop ds.length)
    | _ => ([], cs)
  let ex : List Char × List Char :=
    match fr.2 with
    | e :: r =>
      if e == 'e' || e == 'E' then
        let sn : List Char × List Char :=
          match r with
          | '+' :: rr => (['+'], rr)
          | '-' :: rr => (['-'], rr)
          | _ => ([], r)
        let ds := sn.2.takeWhile Char.isDigit
        if ds = [] then ([], fr.2) else (e :: (sn.1 ++ ds), sn.2.drop ds.length)
      else ([], fr.2)
    | [] => ([], fr.2)
  some (String.mk (lexsofar ++ fr.1 ++ ex.1), ex.2)

def parseNumber (cs : List Char) : Option (String × List Char) :=
  let sg : List Char × List Char :=
    match cs with
    | '-' :: r => (['-'], r)
    | _ => ([], cs)
  match sg.2 with
  | [] => none
  | c :: r =>
    if c == '0' then parseNumTail (sg.1 ++ ['0']) r
    else if c.isDigit then
      let ds := sg.2.takeWhile Char.isDigit
      parseNumTail (sg.1 ++ ds) (sg.2.drop ds.length)
    else none

def assocSet (d : List (String × Json)) (k : String) (v : Json) : List (String × Json) :=
  match d with
  | [] => [(k, v)]
  | (k2, v2) :: rest => if k2 == k then (k2, v) :: rest else (k2, v2) :: assocSet rest k v

def pairsToObj (ps : List (String × Json)) : List (String × Json) :=
  ps.foldl (fun acc p => assocSet acc p.1 p.2) []

mutual

def parseValue : Nat → List Char → Option (Json × List Char)
  | 0, _ => none
  | fuel + 1, cs =>
    match cs with
    | [] => none
    | c :: rest =>
      if c == Char.ofNat 123 then
        match skipJsonWs rest with
        | [] => none
        | x :: r2 =>
          if x == Char.ofNat 125 then some (Json.obj [], r2)
          else
            (parseObjItems fuel (x :: r2)).map (fun p => (Json.obj (pairsToObj p.1), p.2))
      else if c == '[' then
        match skipJsonWs rest with
        | [] => none
        | x :: r2 =>
          if x == ']' then some (Json.arr [], r2)
          else (parseArrItems fuel (x :: r2)).map (fun p => (Json.arr p.1, p.2))
      else if c == '"' then
        (parseStringBody (rest.length + 1) rest).map (fun p => (Json.str (String.mk p.1), p.2))
      else if c == 't' then
        match rest with
        | 'r' :: 'u' :: 'e' :: r => some (Json.bool true, r)
        | _ => none
      else if c == 'f' then
        match rest with
        | 'a' :: 'l' :: 's' :: 'e' :: r => some (Json.bool false, r)
        | _ => none
      else if c == 'n' then
        match rest with
        | 'u' :: 'l' :: 'l' :: r => some (Json.null, r)
        | _ => none
      else if c == 'N' then
        match rest with
        | 'a' :: 'N' :: r => some (Json.nanV, r)
        | _ => none
      else if c == 'I' then
        match rest with
        | 'n' :: 'f' :: 'i' :: 'n' :: 'i' :: 't' :: 'y' :: r => some (Json.infV, r)
        | _ => none
      else if c == '-' then
        match rest with
        | 'I' :: 'n' :: 'f' :: 'i' :: 'n' :: 'i' :: 't' :: 'y' :: r => some (Json.ninfV, r)
        | _ => (parseNumber cs).map (fun p => (Json.num p.1, p.2))
      else if c.isDigit then (parseNumber cs).map (fun p => (Json.num p.1, p.2))
      else none

def parseArrItems : Nat → List Char → Option (List Json × List Char)
  | 0, _ => none
  | fuel + 1, cs =>
    match parseValue fuel cs with
    | none => none
    | some (v, r) =>
      match skipJsonWs r with
      | ',' :: r2 =>
        match parseArrItems fuel (skipJsonWs r2) with
        | some (vs, r3) => some (v :: vs, r3)
        | none => none
      | x :: r2 =>
        if x == ']' then some ([v], r2) else none
      | [] => none

def parseObjItems : Nat → List Char → Option (List (String × Json) × List Char)
  | 0, _ => none
  | fuel + 1, cs =>
    match cs with
    | '"' :: r =>
      match parseStringBody (r.length + 1) r with
      | none => none
      | some (k, r1) =>
        match skipJsonWs r1 with
        | ':' :: r2 =>
          match parseValue fuel (skipJsonWs r2) with
          | none => none
          | some (v, r3) =>
            match skipJsonWs r3 with
            | x :: r4 =>
              if x == ',' then
                match parseObjItems fuel (skipJsonWs r4) with
                | some (ps, r5) => some ((String.mk k, v) :: ps, r5)
                | none => none
              else if x == Char.ofNat 125 then some ([(String.mk k, v)], r4)
              else none
            | [] => none
        | _ => none
    | _ => none

end

/-- Model of Python `json.loads`: skip leading whitespace, parse one value,
require only whitespace to the end of the input.  `none` models a raised
`json.JSONDecodeError`. -/
def json_loads (s : String) : Option Json :=
  match parseValue (2 * s.data.length + 2) (skipJsonWs s.data) with
  | some (v, r) => if skipJsonWs r = [] then some v else none
  | none => none

/-- Embeds `parse_listings` (src/perplexity_search.py lines 64-75): clean the
content, `json.loads` it, return the list when the parse yields a list, and
the empty list when the parse fails or yields a non-list. -/
def parse_listings (content : String) : List Json :=
  match json_loads (clean_json_content content) with
  | some (Json.arr l) => l
  | _ => []

/-! ### Python dictionaries of prediction features

`predict_price` receives a `dict` whose values are strings or numbers.
`dictSet` follows CPython assignment: an existing key keeps its position
and gets the new value, a fresh key is appended. -/

inductive FVal where
  | s (v : String) : FVal
  | n (v : ℚ) : FVal
deriving DecidableEq

abbrev PyDict := List (String × FVal)

def dictGet? (d : PyDict) (k : String) : Option FVal :=
  match d with
  | [] => none
  | (k2, v) :: rest => if k2 == k then some v else dictGet? rest k

def dictGetD (d : PyDict) (k : String) (dflt : FVal) : FVal := (dictGet? d k).getD dflt

def dictSet (d : PyDict) (k : String) (v : FVal) : PyDict :=
  match d with
  | [] => [(k, v)]
  | (k2, v2) :: rest => if k2 == k then (k2, v) :: rest else (k2, v2) :: dictSet rest k v

/-- One line `new_data[k] = new_data.get(k, dflt)` of src/predict.py. -/
def setDefaultFrom (d : PyDict) (k : String) (dflt : FVal) : PyDict :=
  dictSet d k (dictGetD d k dflt)

/-- The five in-place default assignments of `predict_price`
(src/predict.py lines 28-32). -/
def applyPredictDefaults (new_data : PyDict) : PyDict :=
  setDefaultFrom
    (setDefaultFrom
      (setDefaultFrom
        (setDefaultFrom
          (setDefaultFrom new_data "AREA_EN" (FVal.s "UNKNOWN_AREA"))
          "PROP_TYPE_EN" (FVal.s "UNKNOWN_TYPE"))
        "ACTUAL_AREA" (FVal.n 80))
      "BEDROOMS" (FVal.n 1))
    "PARKING" (FVal.n 1)

/-- The defaulted record produced from an empty input dict. -/
def predictDefaultRecord : PyDict :=
  [("AREA_EN", FVal.s "UNKNOWN_AREA"), ("PROP_TYPE_EN", FVal.s "UNKNOWN_TYPE"),
   ("ACTUAL_AREA", FVal.n 80), ("BEDROOMS", FVal.n 1), ("PARKING", FVal.n 1)]

/-- Embeds `predict_price` (src/predict.py lines 22-49).  The pickled model
and its DataFrame pipeline (one-hot encoding, adding missing training
columns as zero, reordering to `training_columns`, `model.predict`, and the
`try`/`except` around the predict call) are the external collaborator: they
are abstracted as `model : Option (PyDict → Option ℚ)`, where the outer
`none` is a model that failed to load and an inner `none` result is a
prediction call that raised.  The returned dict is the caller's dict after
the function's in-place default assignments (no mutation on the early
return at line 24-25). -/
def predict_price (model : Option (PyDict → Option ℚ)) (training_columns : List String)
    (new_data : PyDict) : Option ℚ × PyDict :=
  match model with
  | none => (none, new_data)
  | some m =>
    if training_columns = [] then (none, new_data)
    else
      let d := applyPredictDefaults new_data
      (m d, d)

/-! ### Historical price table (src/main.py lines 22-51) -/

structure PriceStatRow where
  AREA_EN : String
  PROP_TYPE_EN : String
  ROOMS_EN : String
  MIN_PRICE : ℚ
  MAX_PRICE : ℚ
  MEDIAN_PRICE : ℚ
  MEDIAN_AREA : ℚ

structure PriceRange where
  min_price : ℚ
  max_price : ℚ
  median_price : ℚ
  median_area : ℚ

/-- Bedroom-label normalisation of `get_price_range`
(src/main.py lines 32-35): `None` or `0` becomes `"Studio"`, any other
count `n` becomes `"{n} B/R"`. -/
def bedroomsLabel (bedrooms : Option Int) : String :=
  match bedrooms with
  | none => "Studio"
  | some b => if b ≠ 0 then toString b ++ " B/R" else "Studio"

/-- Embeds `get_price_range` (src/main.py lines 28-51): exact-match filter of
the stats table on (area, property type, bedroom label); the first matching
row's fields, or `none` when the table is empty or nothing matches. -/
def get_price_range (price_stats : List PriceStatRow) (area prop_type : String)
    (bedrooms : Option Int) : Option PriceRange :=
  if price_stats.isEmpty then none
  else
    match price_stats.filter (fun r =>
        r.AREA_EN == area && r.PROP_TYPE_EN == prop_type && r.ROOMS_EN == bedroomsLabel bedrooms) with
    | [] => none
    | row :: _ => some ⟨row.MIN_PRICE, row.MAX_PRICE, row.MEDIAN_PRICE, row.MEDIAN_AREA⟩

/-! ### Display formatting used by the dispatcher's f-strings -/

/-- Python `int()` on a number: truncation toward zero. -/
def pyInt (q : ℚ) : Int := if 0 ≤ q then ⌊q⌋ else ⌈q⌉

def groupThrees : List Char → List Char
  | a :: b :: c :: d :: rest => a :: b :: c :: ',' :: groupThrees (d :: rest)
  | l => l

/-- Python `f"{n:,}"` for an integer: thousands separated by commas. -/
def commaSep (n : Int) : String :=
  (if n < 0 then "-" else "") ++ String.mk ((groupThrees (toString n.natAbs).data.reverse).reverse)

def fmtComma (q : ℚ) : String := commaSep (pyInt q)

/-- Python truthiness of an optional string (`None` and `""` are falsy). -/
def strTruthy : Option String → Bool
  | none => false
  | some s => decide (s ≠ "")

/-- Python truthiness of an optional int (`None` and `0` are falsy). -/
def intTruthy : Option Int → Bool
  | none => false
  | some n => decide (n ≠ 0)

/-- Python truthiness of an optional number (`None` and `0` are falsy). -/
def numTruthy : Option ℚ → Bool
  | none => false
  | some q => decide (q ≠ 0)

/-- The `{bedrooms if bedrooms else 'studio'}` fragment of main.py's
f-strings. -/
def bedText (b : Option Int) : String :=
  if intTruthy b then toString (b.getD 0) else "studio"

mutual

/-- Rendering of a JSON-loaded value inside an f-string (Python `str()`).
Scalar cases match CPython; the container cases are a display-only
approximation of CPython's `repr`-based rendering (no dispatcher claim
depends on container rendering). -/
def pyStr : Json → String
  | Json.null => "None"
  | Json.bool true => "True"
  | Json.bool false => "False"
  | Json.num lex => lex
  | Json.str s => s
  | Json.nanV => "nan"
  | Json.infV => "inf"
  | Json.ninfV => "-inf"
  | Json.arr l => "[" ++ pyStrList l ++ "]"
  | Json.obj ps => "\x7b" ++ pyStrObj ps ++ "\x7d"

def pyStrList : List Json → String
  | [] => ""
  | [j] => pyStr j
  | j :: rest => pyStr j ++ ", " ++ pyStrList rest

def pyStrObj : List (String × Json) → String
  | [] => ""
  | [(k, v)] => k ++ ": " ++ pyStr v
  | (k, v) :: rest => k ++ ": " ++ pyStr v ++ ", " ++ pyStrObj rest

end

/-- `listing.get(key, default)` on a parsed listing object; on a non-dict
element CPython would raise, which no modelled path reaches. -/
def jGetD (j : Json) (k : String) (dflt : Json) : Json :=
  match j with
  | Json.obj ps =>
    match ps.find? (fun p => p.1 == k) with
    | some p => p.2
    | none => dflt
  | _ => dflt

/-! ### Listing/commentary provider (src/perplexity_search.py) -/

/-- One `Option {i}: ...` block of the listings reply
(src/main.py lines 84-89). -/
def listingOption (i : Nat) (l : Json) : String :=
  "\nOption " ++ toString i ++ ":\nName: " ++ pyStr (jGetD l "name" (Json.str "A lovely place")) ++
  "\nPrice: " ++ pyStr (jGetD l "price" (Json.str "Not specified")) ++
  "\nFeatures: " ++ pyStr (jGetD l "features" (Json.str "")) ++
  "\nLink: " ++ pyStr (jGetD l "link" (Json.str "#")) ++ "\n"

def listingOptionsFrom (i : Nat) : List Json → String
  | [] => ""
  | l :: ls => listingOption i l ++ listingOptionsFrom (i + 1) ls

/-- The listings reply of `get_perplexity_commentary`
(src/main.py lines 83-90). -/
def listingsReply (listings : List Json) : String :=
  "\n\nI’ve picked out a few options that might suit you:\n" ++ listingOptionsFrom 1 listings

/-- One `Option {i}: ...` block of `find_general_commentary`
(src/perplexity_search.py lines 125-130). -/
def genOption (i : Nat) (r : Json) : String :=
  "\nOption " ++ toString i ++ ": " ++ pyStr (jGetD r "name" (Json.str "A property")) ++
  "\nPrice: " ++ pyStr (jGetD r "price" (Json.str "N/A")) ++
  "\nFeatures: " ++ pyStr (jGetD r "features" (Json.str "")) ++
  "\nLink: " ++ pyStr (jGetD r "link" (Json.str "#")) ++ "\n"

def genOptionsFrom (i : Nat) : List Json → String
  | [] => ""
  | r :: rs => genOption i r ++ genOptionsFrom (i + 1) rs

/-- Embeds `find_general_commentary` (src/perplexity_search.py lines
104-135), applied to the provider's raw response text `genRaw` (the
network call itself is the external collaborator): clean and parse the
response; a non-empty list is formatted, any other parsed value yields the
"couldn’t locate" sentence, and a parse failure yields the "couldn’t
parse" sentence. -/
def find_general_commentary (genRaw : String) : String :=
  match json_loads (clean_json_content genRaw) with
  | some (Json.arr results) =>
    if results.length > 0 then "\nFrom my lookup:\n" ++ genOptionsFrom 1 results
    else "\nIt seems I couldn’t locate suitable listings at the moment."
  | some _ => "\nIt seems I couldn’t locate suitable listings at the moment."
  | none => "\nI’m sorry, I couldn’t parse the listings right now."

/-- Embeds `get_perplexity_commentary` (src/main.py lines 77-96), with the
two possible raw provider responses (`listingsRaw` for `find_listings`,
`genRaw` for `find_general_commentary`) supplied as environment inputs.
The second component counts the Perplexity calls issued (`find_listings`
and `find_general_commentary` each count one); no call is made unless both
location and property type are truthy. -/
def get_perplexity_commentary (listingsRaw genRaw : String)
    (location property_type : Option String) (bedrooms : Option Int)
    (budget : Option ℚ) : String × Nat :=
  if strTruthy location ∧ strTruthy property_type then
    let listings := parse_listings listingsRaw
    if listings.isEmpty then
      let commentary := find_general_commentary genRaw
      if pyStrip commentary ≠ "" then ("\n\n" ++ commentary, 2) else ("", 2)
    else
      (listingsReply listings, 1)
  else ("", 0)

/-! ### Conversation context and per-turn parsed query (src/main.py) -/

structure ParsedQuery where
  intent : Option String
  location : Option String
  property_type : Option String
  bedrooms : Option Int
  budget : Option ℚ
  timeframe : Option String
deriving DecidableEq

structure Ctx where
  location : Option String
  property_type : Option String
  bedrooms : Option Int
  budget : Option ℚ
deriving DecidableEq

/-- The all-`None` interpretation record
(src/nlu_integration.py lines 17-24 and 53-59). -/
def emptyParsed : ParsedQuery := ⟨none, none, none, none, none, none⟩

/-- The initial module-level `user_context` (src/main.py lines 70-75). -/
def emptyCtx : Ctx := ⟨none, none, none, none⟩

/-- Embeds `interpret_user_query` (src/nlu_integration.py lines 10-60).
The OpenAI call plus `json.loads` of its reply is the external
collaborator, abstracted as `extraction`; `none` models any exception in
the `try` block (network failure, non-JSON reply).  Without an API key, or
on an exception, every field of the result is `None`. -/
def interpret_user_query (api_key : Option String) (extraction : Option ParsedQuery) :
    ParsedQuery :=
  match api_key with
  | none => emptyParsed
  | some _ =>
    match extraction with
    | none => emptyParsed
    | some d => d

/-- Net effect on one context field of lines 102-105 plus 113-120 of
src/main.py: a non-`None` extracted value overwrites, `None` (or a missing
key, whose `.get` default writes the old value back) leaves the field
unchanged. -/
def mergeField {α : Type} (old new : Option α) : Option α :=
  match new with
  | some v => some v
  | none => old

/-- The context update of src/main.py lines 102-120. -/
def mergeCtx (ctx : Ctx) (p : ParsedQuery) : Ctx where
  location := mergeField ctx.location p.location
  property_type := mergeField ctx.property_type p.property_type
  bedrooms := mergeField ctx.bedrooms p.bedrooms
  budget := mergeField ctx.budget p.budget

/-- The "assume apartment" default of src/main.py lines 122-125: written
into the persistent context when property type is unset while location is
truthy and bedrooms is not `None`. -/
def applyApartmentDefault (c : Ctx) : Ctx :=
  if c.property_type = none ∧ strTruthy c.location ∧ c.bedrooms ≠ none then
    { c with property_type := some "apartment" }
  else c

/-- The full per-turn mutation of `user_context`
(src/main.py lines 100-131). -/
def updateCtx (ctx : Ctx) (p : ParsedQuery) : Ctx :=
  applyApartmentDefault (mergeCtx ctx p)

/-! ### Reply texts of `handle_user_query` (src/main.py lines 137-290) -/

def oliv_greeting : String :=
  "Hello there, I’m Oliv. I’d love to help you with your property search in Dubai. " ++
  "Are you looking for something to invest in, or perhaps a home for yourself or your family? " ++
  "If you can share the area, property type, and what matters most to you, I can guide you better."

def priceAboveReply (bedrooms : Option Int) (property_type location : String)
    (predicted budget : ℚ) : String :=
  "Well, for a " ++ bedText bedrooms ++ "-bed " ++ property_type ++ " in " ++ location ++
  ", the typical market average is around " ++ fmtComma predicted ++ " AED. " ++
  "Your budget of " ++ fmtComma budget ++
  " AED gives you some flexibility to pick something truly special."

def priceFairReply (bedrooms : Option Int) (property_type location : String)
    (predicted budget : ℚ) : String :=
  "In " ++ location ++ ", a " ++ bedText bedrooms ++ "-bed " ++ property_type ++
  " usually hovers near " ++ fmtComma predicted ++ " AED. " ++
  "Your budget of " ++ fmtComma budget ++ " AED fits right into the local range."

def priceNoBudgetReply (bedrooms : Option Int) (property_type location : String)
    (predicted : ℚ) : String :=
  "Typically, a " ++ bedText bedrooms ++ "-bed " ++ property_type ++ " in " ++ location ++
  " is around " ++ fmtComma predicted ++ " AED. " ++
  "May I ask if you’re exploring these prices for a personal home or an investment property?"

def histSentence (st : PriceRange) : String :=
  " Historically, similar places sold from about " ++ fmtComma st.min_price ++
  " to " ++ fmtComma st.max_price ++ " AED, with a median near " ++
  fmtComma st.median_price ++ " AED."

def priceNoDataReply (property_type location : String) : String :=
  "I’m sorry, I don’t have enough historical data to pinpoint the price range for a " ++
  property_type ++ " in " ++ location ++ ". " ++
  "Could you tell me what drew you to this area or what your plans are? Understanding your goals helps me help you."

def askLocTypeReply : String :=
  "I’d love to help! Could you tell me a bit more about what type of property you’d like " ++
  "and in which area of Dubai? Also, is this for your own residence, or an investment?"

def askBudgetReply (bedrooms : Option Int) (property_type location : String) : String :=
  "So we’re looking at a " ++ bedText bedrooms ++ "-bed " ++ property_type ++ " in " ++ location ++
  ", wonderful choice. " ++
  "What sort of budget range are we considering here? And let me know, is this place for your family, " ++
  "or more of a long-term investment?"

def searchIntroReply (bedrooms : Option Int) (property_type location : String)
    (budget : ℚ) : String :=
  "Let’s see what’s currently available for a " ++ bedText bedrooms ++ "-bed " ++
  property_type ++ " in " ++ location ++ " around " ++ fmtComma budget ++ " AED."

def searchPriceHint (st : PriceRange) : String :=
  " Historically, similar units sold around " ++ fmtComma st.min_price ++ "-" ++
  fmtComma st.max_price ++ " AED (median ~" ++ fmtComma st.median_price ++ " AED)."

def searchNoMatchReply (intro price_hint : String) : String :=
  intro ++ "\n\nI’m not seeing exact matches at the moment. " ++
  "Would you consider adjusting your budget slightly or exploring a nearby neighborhood? " ++
  price_hint ++ " Let me know a bit about your preferences—do you need extra space for a family, " ++
  "or are you focusing on high rental yield for investment?"

def marketTrendStats (location : String) (st : PriceRange) : String :=
  "In " ++ location ++ ", historically, properties ranged " ++ fmtComma st.min_price ++ "-" ++
  fmtComma st.max_price ++ " AED, with a median near " ++ fmtComma st.median_price ++ " AED. " ++
  "The market often appeals to both families and investors looking for stable growth."

def marketTrendNoStats (location : String) : String :=
  "In " ++ location ++ ", the market can vary widely. " ++
  "Are you considering this area for long-term capital appreciation, or is it more about a home that fits your lifestyle?"

def scheduleViewingReply : String :=
  "Wonderful! Let’s sort out the viewing details. Could you share your preferred date, time, " ++
  "and the best way to reach you? Also, is this for yourself or are you guiding someone else through the process?"

def partialLocationReply (location : String) : String :=
  "I’m glad you mentioned " ++ location ++
  ". Could you tell me what type of property you’re leaning towards there? " ++
  "Also, is this a family home you’re after, or are you more interested in an investment opportunity?"

def partialTypeReply (property_type : String) : String :=
  "So you’re interested in a " ++ property_type ++
  ", lovely. Do you have a particular area of Dubai in mind? " ++
  "And are we looking for a place to settle down, or to generate a rental income?"

def knownDetailsReply (bedrooms : Option Int) (property_type location : String) : String :=
  "I see you’re interested in a " ++ bedText bedrooms ++ "-bed " ++ property_type ++ " in " ++
  location ++ ". " ++
  "Could you share whether this is for your family, or perhaps a good investment spot you have in mind?"

def tellMeMoreReply (location : String) : String :=
  "Tell me more about what you’re looking for in " ++ location ++ ". " ++
  "Is this your first time investing in Dubai, or are you searching for a new home to accommodate your lifestyle?"

def fallbackGreeting : String :=
  "Hello! I’m Oliv. To assist you better, I’d love to know if you’re seeking a family home or an investment property, " ++
  "and in which area you’re interested. Let’s start with that—where in Dubai catches your eye?"

/-- The external collaborators a turn depends on: the pickled regression
model and its training columns (src/predict.py), the loaded
`price_stats.csv` rows, and the raw Perplexity response texts for the
listing and the general-commentary prompts. -/
structure Env where
  model : Option (PyDict → Option ℚ)
  training_columns : List String
  price_stats : List PriceStatRow
  listingsRaw : String
  genRaw : String

/-- Embeds `handle_user_query` (src/main.py lines 98-290).  The result is
the updated persistent context, the reply text, and the number of
Perplexity calls issued during the turn. -/
def handle_user_query (env : Env) (ctx : Ctx) (parsed : ParsedQuery) :
    Ctx × String × Nat :=
  let c := updateCtx ctx parsed
  let intent := parsed.intent
  let location := c.location
  let property_type := c.property_type
  let bedrooms := c.bedrooms
  let budget := c.budget
  if ¬ strTruthy location ∧ ¬ strTruthy property_type ∧ ¬ strTruthy intent then
    (c, oliv_greeting, 0)
  else if intent = some "price_check" ∧ strTruthy location ∧ strTruthy property_type then
    let loc := location.getD ""
    let pt := property_type.getD ""
    let pp := predict_price env.model env.training_columns
      [("AREA_EN", FVal.s loc), ("PROP_TYPE_EN", FVal.s pt), ("ACTUAL_AREA", FVal.n 100),
       ("BEDROOMS", FVal.n (if intTruthy bedrooms then ((bedrooms.getD 0 : Int) : ℚ) else 0)),
       ("PARKING", FVal.n 1)]
    let comm := get_perplexity_commentary env.listingsRaw env.genRaw location property_type bedrooms budget
    match pp.1 with
    | some predicted =>
      let base :=
        if numTruthy budget then
          if budget.getD 0 > predicted then
            priceAboveReply bedrooms pt loc predicted (budget.getD 0)
          else
            priceFairReply bedrooms pt loc predicted (budget.getD 0)
        else priceNoBudgetReply bedrooms pt loc predicted
      let withHist :=
        match get_price_range env.price_stats loc pt bedrooms with
        | some st => base ++ histSentence st
        | none => base
      (c, pyStrip (withHist ++ comm.1), comm.2)
    | none =>
      (c, pyStrip (priceNoDataReply pt loc ++ comm.1), comm.2)
  else if intent = some "search_listings" then
    if ¬ strTruthy location ∨ ¬ strTruthy property_type then
      (c, askLocTypeReply, 0)
    else if budget = none then
      (c, askBudgetReply bedrooms (property_type.getD "") (location.getD ""), 0)
    else
      let intro := searchIntroReply bedrooms (property_type.getD "") (location.getD "") (budget.getD 0)
      let comm := get_perplexity_commentary env.listingsRaw env.genRaw location property_type bedrooms budget
      if pyStrip comm.1 = "" then
        let price_hint :=
          match get_price_range env.price_stats (location.getD "") (property_type.getD "") bedrooms with
          | some st => searchPriceHint st
          | none => ""
        (c, pyStrip (searchNoMatchReply intro price_hint), comm.2)
      else
        (c, pyStrip (intro ++ comm.1), comm.2)
  else if intent = some "market_trend" ∧ strTruthy location then
    let loc := location.getD ""
    let pt := if strTruthy property_type then property_type.getD "" else "apartment"
    let base :=
      match get_price_range env.price_stats loc pt bedrooms with
      | some st => marketTrendStats loc st
      | none => marketTrendNoStats loc
    let comm := get_perplexity_commentary env.listingsRaw env.genRaw location (some pt) bedrooms none
    (c, pyStrip (base ++ comm.1), comm.2)
  else if intent = some "schedule_viewing" then
    (c, scheduleViewingReply, 0)
  else if strTruthy location ∧ ¬ strTruthy property_type then
    (c, partialLocationReply (location.getD ""), 0)
  else if strTruthy property_type ∧ ¬ strTruthy location then
    (c, partialTypeReply (property_type.getD ""), 0)
  else if strTruthy location ∧ strTruthy property_type then
    let comm := get_perplexity_commentary env.listingsRaw env.genRaw location property_type bedrooms budget
    if pyStrip comm.1 ≠ "" then
      (c, knownDetailsReply bedrooms (property_type.getD "") (location.getD "") ++ comm.1, comm.2)
    else
      (c, tellMeMoreReply (location.getD ""), comm.2)
  else
    (c, fallbackGreeting, 0)

/-- The branch structure selecting the budget classification in the
price-check reply (src/main.py lines 155-167): `if budget:` guards the
comparison (`None` and `0` are falsy), and the strict `budget > predicted`
picks the "above" reply, anything else the "fair" reply.  The same strict
`>` appears in src/chat.py lines 61-73. -/
inductive BudgetClass where
  | above : BudgetClass
  | fair : BudgetClass
  | noBudget : BudgetClass
deriving DecidableEq

def priceCheckBudgetBranch (budget : Option ℚ) (predicted : ℚ) : BudgetClass :=
  match budget with
  | none => BudgetClass.noBudget
  | some b =>
    if b ≠ 0 then
      if b > predicted then BudgetClass.above else BudgetClass.fair
    else BudgetClass.noBudget

/-! ### Association-list lemmas for the prediction dict -/

lemma dictGet?_dictSet_self (d : PyDict) (k : String) (v : FVal) :
    dictGet? (dictSet d k v) k = some v := by
  induction d with
  | nil => simp [dictSet, dictGet?]
  | cons p rest ih =>
    obtain ⟨k2, v2⟩ := p
    by_cases hk : k2 == k
    · simp [dictSet, dictGet?, hk]
    · simp only [dictSet, dictGet?, hk, Bool.false_eq_true, if_false, if_neg]
      exact ih

lemma dictGet?_dictSet_ne (d : PyDict) (k : String) (v : FVal) (k2 : String) (h : k2 ≠ k) :
    dictGet? (dictSet d k v) k2 = dictGet? d k2 := by
  induction d with
  | nil =>
    simp [dictSet, dictGet?]
    intro habs
    exact absurd habs.symm h
  | cons p rest ih =>
    obtain ⟨k3, v3⟩ := p
    by_cases hk : k3 == k
    · have hk' : k3 = k := by simpa using hk
      have : ¬ (k3 == k2) = true := by
        simp only [beq_iff_eq]
        intro habs
        exact h (habs.symm.trans hk')
      simp [dictSet, dictGet?, hk, this]
    · by_cases hk2 : k3 == k2
      · simp [dictSet, dictGet?, hk, hk2]
      · simp [dictSet, dictGet?, hk, hk2, ih]

lemma dictGetD_dictSet_ne (d : PyDict) (k : String) (v : FVal) (k2 : String) (dflt : FVal)
    (h : k2 ≠ k) : dictGetD (dictSet d k v) k2 dflt = dictGetD d k2 dflt := by
  unfold dictGetD
  rw [dictGet?_dictSet_ne d k v k2 h]

lemma dictGet?_setDefaultFrom_self (d : PyDict) (k : String) (dflt : FVal) :
    dictGet? (setDefaultFrom d k dflt) k = some (dictGetD d k dflt) := by
  unfold setDefaultFrom
  exact dictGet?_dictSet_self d k (dictGetD d k dflt)

lemma dictGet?_setDefaultFrom_ne (d : PyDict) (k : String) (dflt : FVal) (k2 : String)
    (h : k2 ≠ k) : dictGet? (setDefaultFrom d k dflt) k2 = dictGet? d k2 :=
  dictGet?_dictSet_ne d k (dictGetD d k dflt) k2 h

lemma dictGetD_setDefaultFrom_ne (d : PyDict) (k : String) (dflt : FVal) (k2 : String)
    (dflt2 : FVal) (h : k2 ≠ k) :
    dictGetD (setDefaultFrom d k dflt) k2 dflt2 = dictGetD d k2 dflt2 := by
  unfold dictGetD
  rw [dictGet?_setDefaultFrom_ne d k dflt k2 h]

/-! ### Claim theorems -/

/-- C2: on a price-check turn with a (truthy) budget `B` and a numeric
estimate `E`, the reply branch classifies the budget as above the market
average exactly when `B > E`, and as fitting the local range (fair) exactly
when `B ≤ E`; in particular `B = E` lands in the fair branch. -/
theorem price_check_boundary (b predicted : ℚ) (hb : b ≠ 0) :
    (priceCheckBudgetBranch (some b) predicted = BudgetClass.above ↔ b > predicted)
  ∧ (priceCheckBudgetBranch (some b) predicted = BudgetClass.fair ↔ b ≤ predicted) := by
  have hred : priceCheckBudgetBranch (some b) predicted =
      if b ≠ 0 then (if b > predicted then BudgetClass.above else BudgetClass.fair)
      else BudgetClass.noBudget := rfl
  rw [hred, if_pos hb]
  rcases lt_or_ge predicted b with h | h
  · rw [if_pos h]
    exact ⟨Iff.intro (fun _ => h) (fun _ => rfl),
      Iff.intro (fun he => nomatch he) (fun hle => absurd hle (not_le.mpr h))⟩
  · rw [if_neg (not_lt.mpr h)]
    exact ⟨Iff.intro (fun he => nomatch he) (fun hgt => absurd hgt (not_lt.mpr h)),
      Iff.intro (fun _ => h) (fun _ => rfl)⟩

theorem price_check_boundary_witness :
    ((5 : ℚ) ≠ 0) ∧ priceCheckBudgetBranch (some 5) 5 = BudgetClass.fair := by
  have h5 : (5 : ℚ) ≠ 0 := by norm_num
  exact ⟨h5, (price_check_boundary 5 5 h5).2.mpr le_rfl⟩

/-- C4: the bedroom label is `"Studio"` for `None` and `0` and `"{b} B/R"`
for any other count, and `get_price_range` is an exact-match lookup on
(area, property type, label) that returns `none` — not an error — when no
row matches. -/
theorem bedrooms_label_and_lookup :
    bedroomsLabel none = "Studio"
  ∧ bedroomsLabel (some 0) = "Studio"
  ∧ (∀ b : Int, b ≠ 0 → bedroomsLabel (some b) = toString b ++ " B/R")
  ∧ (∀ (stats : List PriceStatRow) (area pt : String) (b : Option Int),
      (∀ r ∈ stats, ¬ (r.AREA_EN = area ∧ r.PROP_TYPE_EN = pt ∧ r.ROOMS_EN = bedroomsLabel b)) →
      get_price_range stats area pt b = none)
  ∧ (∀ (stats : List PriceStatRow) (area pt : String) (b : Option Int) (x : PriceRange),
      get_price_range stats area pt b = some x →
      ∃ r ∈ stats, r.AREA_EN = area ∧ r.PROP_TYPE_EN = pt ∧ r.ROOMS_EN = bedroomsLabel b) := by
  refine ⟨rfl, rfl, fun b hb => by simp [bedroomsLabel, hb], ?_, ?_⟩
  · intro stats area pt b h
    have hf : stats.filter (fun r =>
        r.AREA_EN == area && r.PROP_TYPE_EN == pt && r.ROOMS_EN == bedroomsLabel b) = [] := by
      rw [List.filter_eq_nil_iff]
      intro r hr
      have := h r hr
      simp only [Bool.and_eq_true, beq_iff_eq]
      tauto
    by_cases he : stats.isEmpty
    · simp [get_price_range, he]
    · simp [get_price_range, he, hf]
  · intro stats area pt b x hx
    unfold get_price_range at hx
    by_cases he : stats.isEmpty
    · simp [he] at hx
    · rw [if_neg (by simp [he])] at hx
      rcases hfil : stats.filter (fun r =>
          r.AREA_EN == area && r.PROP_TYPE_EN == pt && r.ROOMS_EN == bedroomsLabel b) with
        _ | ⟨r, rest⟩
      · rw [hfil] at hx
        exact absurd hx (by simp)
      · have hr : r ∈ stats.filter (fun r =>
            r.AREA_EN == area && r.PROP_TYPE_EN == pt && r.ROOMS_EN == bedroomsLabel b) := by
          rw [hfil]; exact List.mem_cons_self _ _
        have := List.mem_filter.mp hr
        refine ⟨r, this.1, ?_⟩
        have hp := this.2
        simp only [Bool.and_eq_true, beq_iff_eq] at hp
        tauto

theorem bedrooms_label_and_lookup_witness :
    bedroomsLabel (some 2) = "2 B/R"
  ∧ get_price_range [⟨"Downtown", "apartment", "1 B/R", 1, 2, 3, 4⟩]
      "Dubai Marina" "apartment" (some 2) = none := by
  refine ⟨bedrooms_label_and_lookup.2.2.1 2 (by decide),
    bedrooms_label_and_lookup.2.2.2.1 _ _ _ _ ?_⟩
  intro r hr
  simp only [List.mem_singleton] at hr
  subst hr
  intro habs
  exact absurd habs.1 (by decide)

/-- C6: `parse_listings` is total (never propagates an exception): when the
cleaned content fails to parse, or parses to a non-array, the result is the
empty list, and in every case the result is either empty or exactly the
parsed array. -/
theorem parse_listings_never_raises (content : String) :
    (json_loads (clean_json_content content) = none → parse_listings content = [])
  ∧ (∀ v, json_loads (clean_json_content content) = some v →
      (∀ l, v ≠ Json.arr l) → parse_listings content = [])
  ∧ (parse_listings content = [] ∨
      ∃ l, json_loads (clean_json_content content) = some (Json.arr l) ∧
        parse_listings content = l) := by
  refine ⟨fun h => by simp [parse_listings, h], ?_, ?_⟩
  · intro v hv hnot
    cases v with
    | arr l => exact absurd rfl (hnot l)
    | null => simp [parse_listings, hv]
    | bool b => simp [parse_listings, hv]
    | num lex => simp [parse_listings, hv]
    | str s => simp [parse_listings, hv]
    | obj ps => simp [parse_listings, hv]
    | nanV => simp [parse_listings, hv]
    | infV => simp [parse_listings, hv]
    | ninfV => simp [parse_listings, hv]
  · rcases hj : json_loads (clean_json_content content) with _ | v
    · exact Or.inl (by simp [parse_listings, hj])
    · cases v with
      | arr l => exact Or.inr ⟨l, rfl, by simp [parse_listings, hj]⟩
      | null => exact Or.inl (by simp [parse_listings, hj])
      | bool b => exact Or.inl (by simp [parse_listings, hj])
      | num lex => exact Or.inl (by simp [parse_listings, hj])
      | str s => exact Or.inl (by simp [parse_listings, hj])
      | obj ps => exact Or.inl (by simp [parse_listings, hj])
      | nanV => exact Or.inl (by simp [parse_listings, hj])
      | infV => exact Or.inl (by simp [parse_listings, hj])
      | ninfV => exact Or.inl (by simp [parse_listings, hj])

theorem parse_listings_never_raises_witness : parse_listings "oops" = [] :=
  (parse_listings_never_raises "oops").1 rfl

/-- C7: `predict_price` never propagates an exception: an unloaded model or
empty column schema yields `none`, a raising prediction call yields `none`,
and an empty feature record is predicted from exactly the documented
defaults (area `UNKNOWN_AREA`, type `UNKNOWN_TYPE`, size 80, bedrooms 1,
parking 1). -/
theorem predict_price_degrades (m : PyDict → Option ℚ) (cols : List String) (d : PyDict) :
    predict_price none cols d = (none, d)
  ∧ predict_price (some m) [] d = (none, d)
  ∧ (cols ≠ [] → m (applyPredictDefaults d) = none → (predict_price (some m) cols d).1 = none)
  ∧ (cols ≠ [] → predict_price (some m) cols [] = (m predictDefaultRecord, predictDefaultRecord)) := by
  refine ⟨rfl, rfl, ?_, ?_⟩
  · intro hc hm
    simp [predict_price, hc, hm]
  · intro hc
    simp [predict_price, hc]
    exact ⟨rfl, rfl⟩

theorem predict_price_degrades_witness :
    (["c"] ≠ ([] : List String))
  ∧ (predict_price (some (fun _ => none)) ["c"] []).1 = none :=
  ⟨by decide, (predict_price_degrades (fun _ => none) ["c"] []).2.2.1 (by decide) rfl⟩

/-- C9: when the model and column schema are loaded, `predict_price`
mutates its caller's dict in place: afterwards all five feature keys are
present (holding the prior value when one existed, the documented default
otherwise), independently of the prediction result, and a dict that was
missing any of the five keys is observably changed. -/
theorem predict_price_mutates (m : PyDict → Option ℚ) (cols : List String) (d : PyDict)
    (hcols : cols ≠ []) :
    dictGet? (predict_price (some m) cols d).2 "AREA_EN"
      = some (dictGetD d "AREA_EN" (FVal.s "UNKNOWN_AREA"))
  ∧ dictGet? (predict_price (some m) cols d).2 "PROP_TYPE_EN"
      = some (dictGetD d "PROP_TYPE_EN" (FVal.s "UNKNOWN_TYPE"))
  ∧ dictGet? (predict_price (some m) cols d).2 "ACTUAL_AREA"
      = some (dictGetD d "ACTUAL_AREA" (FVal.n 80))
  ∧ dictGet? (predict_price (some m) cols d).2 "BEDROOMS"
      = some (dictGetD d "BEDROOMS" (FVal.n 1))
  ∧ dictGet? (predict_price (some m) cols d).2 "PARKING"
      = some (dictGetD d "PARKING" (FVal.n 1))
  ∧ ((dictGet? d "AREA_EN" = none ∨ dictGet? d "PROP_TYPE_EN" = none ∨
      dictGet? d "ACTUAL_AREA" = none ∨ dictGet? d "BEDROOMS" = none ∨
      dictGet? d "PARKING" = none) →
      (predict_price (some m) cols d).2 ≠ d) := by
  have hd : (predict_price (some m) cols d).2 = applyPredictDefaults d := by
    simp [predict_price, hcols]
  rw [hd]
  unfold applyPredictDefaults
  have hA : dictGet? (setDefaultFrom (setDefaultFrom (setDefaultFrom (setDefaultFrom
      (setDefaultFrom d "AREA_EN" (FVal.s "UNKNOWN_AREA")) "PROP_TYPE_EN"
      (FVal.s "UNKNOWN_TYPE")) "ACTUAL_AREA" (FVal.n 80)) "BEDROOMS" (FVal.n 1))
      "PARKING" (FVal.n 1)) "AREA_EN" = some (dictGetD d "AREA_EN" (FVal.s "UNKNOWN_AREA")) := by
    rw [dictGet?_setDefaultFrom_ne _ _ _ _ (by decide),
      dictGet?_setDefaultFrom_ne _ _ _ _ (by decide),
      dictGet?_setDefaultFrom_ne _ _ _ _ (by decide),
      dictGet?_setDefaultFrom_ne _ _ _ _ (by decide),
      dictGet?_setDefaultFrom_self]
  have hP : dictGet? (setDefaultFrom (setDefaultFrom (setDefaultFrom (setDefaultFrom
      (setDefaultFrom d "AREA_EN" (FVal.s "UNKNOWN_AREA")) "PROP_TYPE_EN"
      (FVal.s "UNKNOWN_TYPE")) "ACTUAL_AREA" (FVal.n 80)) "BEDROOMS" (FVal.n 1))
      "PARKING" (FVal.n 1)) "PROP_TYPE_EN"
      = some (dictGetD d "PROP_TYPE_EN" (FVal.s "UNKNOWN_TYPE")) := by
    rw [dictGet?_setDefaultFrom_ne _ _ _ _ (by decide),
      dictGet?_setDefaultFrom_ne _ _ _ _ (by decide),
      dictGet?_setDefaultFrom_ne _ _ _ _ (by decide),
      dictGet?_setDefaultFrom_self,
      dictGetD_setDefaultFrom_ne _ _ _ _ _ (by decide)]
  have hAA : dictGet? (setDefaultFrom (setDefaultFrom (setDefaultFrom (setDefaultFrom
      (setDefaultFrom d "AREA_EN" (FVal.s "UNKNOWN_AREA")) "PROP_TYPE_EN"
      (FVal.s "UNKNOWN_TYPE")) "ACTUAL_AREA" (FVal.n 80)) "BEDROOMS" (FVal.n 1))
      "PARKING" (FVal.n 1)) "ACTUAL_AREA" = some (dictGetD d "ACTUAL_AREA" (FVal.n 80)) := by
    rw [dictGet?_setDefaultFrom_ne _ _ _ _ (by decide),
      dictGet?_setDefaultFrom_ne _ _ _ _ (by decide),
      dictGet?_setDefaultFrom_self,
      dictGetD_setDefaultFrom_ne _ _ _ _ _ (by decide),
      dictGetD_setDefaultFrom_ne _ _ _ _ _ (by decide)]
  have hB : dictGet? (setDefaultFrom (setDefaultFrom (setDefaultFrom (setDefaultFrom
      (setDefaultFrom d "AREA_EN" (FVal.s "UNKNOWN_AREA")) "PROP_TYPE_EN"
      (FVal.s "UNKNOWN_TYPE")) "ACTUAL_AREA" (FVal.n 80)) "BEDROOMS" (FVal.n 1))
      "PARKING" (FVal.n 1)) "BEDROOMS" = some (dictGetD d "BEDROOMS" (FVal.n 1)) := by
    rw [dictGet?_setDefaultFrom_ne _ _ _ _ (by decide),
      dictGet?_setDefaultFrom_self,
      dictGetD_setDefaultFrom_ne _ _ _ _ _ (by decide),
      dictGetD_setDefaultFrom_ne _ _ _ _ _ (by decide),
      dictGetD_setDefaultFrom_ne _ _ _ _ _ (by decide)]
  have hPK : dictGet? (setDefaultFrom (setDefaultFrom (setDefaultFrom (setDefaultFrom
      (setDefaultFrom d "AREA_EN" (FVal.s "UNKNOWN_AREA")) "PROP_TYPE_EN"
      (FVal.s "UNKNOWN_TYPE")) "ACTUAL_AREA" (FVal.n 80)) "BEDROOMS" (FVal.n 1))
      "PARKING" (FVal.n 1)) "PARKING" = some (dictGetD d "PARKING" (FVal.n 1)) := by
    rw [dictGet?_setDefaultFrom_self,
      dictGetD_setDefaultFrom_ne _ _ _ _ _ (by decide),
      dictGetD_setDefaultFrom_ne _ _ _ _ _ (by decide),
      dictGetD_setDefaultFrom_ne _ _ _ _ _ (by decide),
      dictGetD_setDefaultFrom_ne _ _ _ _ _ (by decide)]
  refine ⟨hA, hP, hAA, hB, hPK, ?_⟩
  intro hmiss heq
  rcases hmiss with h | h | h | h | h
  · rw [heq, h] at hA
    unfold dictGetD at hA
    rw [h] at hA
    exact absurd hA (by simp)
  · rw [heq, h] at hP
    unfold dictGetD at hP
    rw [h] at hP
    exact absurd hP (by simp)
  · rw [heq, h] at hAA
    unfold dictGetD at hAA
    rw [h] at hAA
    exact absurd hAA (by simp)
  · rw [heq, h] at hB
    unfold dictGetD at hB
    rw [h] at hB
    exact absurd hB (by simp)
  · rw [heq, h] at hPK
    unfold dictGetD at hPK
    rw [h] at hPK
    exact absurd hPK (by simp)

theorem predict_price_mutates_witness :
    dictGet? (predict_price (some (fun _ => none)) ["c"] []).2 "AREA_EN"
      = some (FVal.s "UNKNOWN_AREA") :=
  (predict_price_mutates (fun _ => none) ["c"] [] (by decide)).1

/-- C8: with the API credential absent, or when the extraction call raises,
`interpret_user_query` returns the record with all six fields `none` rather
than signalling an error, and the dispatcher handed that all-none record
with an empty context still produces a non-empty user-facing reply. -/
theorem interpreter_dispatcher_degrade :
    (∀ r, interpret_user_query none r = emptyParsed)
  ∧ (∀ k, interpret_user_query (some k) none = emptyParsed)
  ∧ (emptyParsed.intent = none ∧ emptyParsed.location = none ∧
      emptyParsed.property_type = none ∧ emptyParsed.bedrooms = none ∧
      emptyParsed.budget = none ∧ emptyParsed.timeframe = none)
  ∧ (∀ env : Env, (handle_user_query env emptyCtx emptyParsed).2.1 ≠ "") := by
  refine ⟨fun r => rfl, fun k => rfl, ⟨rfl, rfl, rfl, rfl, rfl, rfl⟩, fun env => ?_⟩
  have h : (handle_user_query env emptyCtx emptyParsed).2.1 = oliv_greeting := rfl
  rw [h]
  decide

/-! ### Context-update lemmas -/

lemma applyApartmentDefault_location (c : Ctx) :
    (applyApartmentDefault c).location = c.location := by
  unfold applyApartmentDefault
  split <;> rfl

lemma applyApartmentDefault_bedrooms (c : Ctx) :
    (applyApartmentDefault c).bedrooms = c.bedrooms := by
  unfold applyApartmentDefault
  split <;> rfl

lemma applyApartmentDefault_budget (c : Ctx) :
    (applyApartmentDefault c).budget = c.budget := by
  unfold applyApartmentDefault
  split <;> rfl

lemma applyApartmentDefault_pt_of_some (c : Ctx) (v : String) (h : c.property_type = some v) :
    (applyApartmentDefault c).property_type = some v := by
  unfold applyApartmentDefault
  split
  · next hcond =>
    rw [h] at hcond
    exact Option.noConfusion hcond.1
  · exact h

lemma updateCtx_pt_some (c : Ctx) (q : ParsedQuery) (w : String)
    (hq : q.property_type = some w) : (updateCtx c q).property_type = some w := by
  have hm : (mergeCtx c q).property_type = some w := by
    simp [mergeCtx, mergeField, hq]
  exact applyApartmentDefault_pt_of_some _ _ hm

lemma updateCtx_pt_none (c : Ctx) (s : String) (q : ParsedQuery)
    (hc : c.property_type = some s) (hq : q.property_type = none) :
    (updateCtx c q).property_type = some s := by
  have hm : (mergeCtx c q).property_type = some s := by
    simp [mergeCtx, mergeField, hq, hc]
  exact applyApartmentDefault_pt_of_some _ _ hm

/-- C1: context stickiness — every already-set context field survives a
turn whose extraction yields `None` for it, and is only changed by a new
non-`None` extracted value. -/
theorem context_stickiness (ctx : Ctx) (p : ParsedQuery) :
    (∀ v, ctx.location = some v →
        ((p.location = none → (updateCtx ctx p).location = some v)
          ∧ ∀ w, p.location = some w → (updateCtx ctx p).location = some w))
  ∧ (∀ v, ctx.property_type = some v →
        ((p.property_type = none → (updateCtx ctx p).property_type = some v)
          ∧ ∀ w, p.property_type = some w → (updateCtx ctx p).property_type = some w))
  ∧ (∀ v, ctx.bedrooms = some v →
        ((p.bedrooms = none → (updateCtx ctx p).bedrooms = some v)
          ∧ ∀ w, p.bedrooms = some w → (updateCtx ctx p).bedrooms = some w))
  ∧ (∀ v, ctx.budget = some v →
        ((p.budget = none → (updateCtx ctx p).budget = some v)
          ∧ ∀ w, p.budget = some w → (updateCtx ctx p).budget = some w)) := by
  refine ⟨?_, ?_, ?_, ?_⟩
  · intro v hv
    constructor
    · intro hp
      rw [updateCtx, applyApartmentDefault_location]
      simp [mergeCtx, mergeField, hp, hv]
    · intro w hw
      rw [updateCtx, applyApartmentDefault_location]
      simp [mergeCtx, mergeField, hw]
  · intro v hv
    exact ⟨fun hp => updateCtx_pt_none ctx v p hv hp, fun w hw => updateCtx_pt_some ctx p w hw⟩
  · intro v hv
    constructor
    · intro hp
      rw [updateCtx, applyApartmentDefault_bedrooms]
      simp [mergeCtx, mergeField, hp, hv]
    · intro w hw
      rw [updateCtx, applyApartmentDefault_bedrooms]
      simp [mergeCtx, mergeField, hw]
  · intro v hv
    constructor
    · intro hp
      rw [updateCtx, applyApartmentDefault_budget]
      simp [mergeCtx, mergeField, hp, hv]
    · intro w hw
      rw [updateCtx, applyApartmentDefault_budget]
      simp [mergeCtx, mergeField, hw]

theorem context_stickiness_witness :
    (updateCtx ⟨some "Dubai Marina", none, none, none⟩
      ⟨some "price_check", none, none, none, some 900000, none⟩).location
      = some "Dubai Marina" :=
  ((context_stickiness ⟨some "Dubai Marina", none, none, none⟩
    ⟨some "price_check", none, none, none, some 900000, none⟩).1 "Dubai Marina" rfl).1 rfl

/-- C10: when the merged context has no property type while location is
truthy and bedrooms is set (including 0), the dispatcher persists
"apartment" into the context, and every later turn keeps resolving the
property type to "apartment" until an extraction supplies a non-`None`
value, which then takes over. -/
theorem apartment_default_persists (ctx : Ctx) (p : ParsedQuery)
    (h1 : (mergeCtx ctx p).property_type = none)
    (h2 : strTruthy (mergeCtx ctx p).location)
    (h3 : (mergeCtx ctx p).bedrooms ≠ none) :
    (updateCtx ctx p).property_type = some "apartment"
  ∧ (∀ ps : List ParsedQuery, (∀ q ∈ ps, q.property_type = none) →
      (ps.foldl updateCtx (updateCtx ctx p)).property_type = some "apartment")
  ∧ (∀ q : ParsedQuery, ∀ w, q.property_type = some w →
      (updateCtx (updateCtx ctx p) q).property_type = some w) := by
  have hfirst : (updateCtx ctx p).property_type = some "apartment" := by
    unfold updateCtx applyApartmentDefault
    rw [if_pos ⟨h1, h2, h3⟩]
  have general : ∀ (ps : List ParsedQuery) (c : Ctx), c.property_type = some "apartment" →
      (∀ q ∈ ps, q.property_type = none) →
      (ps.foldl updateCtx c).property_type = some "apartment" := by
    intro ps
    induction ps with
    | nil => exact fun c hc _ => hc
    | cons q ps ih =>
      intro c hc hall
      have hstep := updateCtx_pt_none c "apartment" q hc (hall q (by simp))
      exact ih _ hstep (fun q2 hq2 => hall q2 (by simp [hq2]))
  exact ⟨hfirst, fun ps hps => general ps _ hfirst hps,
    fun q w hq => updateCtx_pt_some _ q w hq⟩

theorem apartment_default_persists_witness :
    (updateCtx ⟨some "Dubai Marina", none, some 2, none⟩ emptyParsed).property_type
      = some "apartment" :=
  (apartment_default_persists ⟨some "Dubai Marina", none, some 2, none⟩ emptyParsed
    rfl (by decide) (by decide)).1

/-- C3: on a search-listings turn the dispatcher is terminal on missing
data — with location and property type resolved but budget absent it
replies with the single budget question and issues no Perplexity call, and
with location or property type missing it replies with the single
location/type question and issues no Perplexity call. -/
theorem search_listings_clarifies (env : Env) (ctx : Ctx) (p : ParsedQuery)
    (hintent : p.intent = some "search_listings") :
    ((¬ strTruthy (updateCtx ctx p).location ∨ ¬ strTruthy (updateCtx ctx p).property_type) →
        (handle_user_query env ctx p).2 = (askLocTypeReply, 0))
  ∧ (strTruthy (updateCtx ctx p).location → strTruthy (updateCtx ctx p).property_type →
      (updateCtx ctx p).budget = none →
        (handle_user_query env ctx p).2 =
          (askBudgetReply (updateCtx ctx p).bedrooms
            ((updateCtx ctx p).property_type.getD "")
            ((updateCtx ctx p).location.getD ""), 0)) := by
  have e1 : strTruthy (some "search_listings") = true := rfl
  have e2 : ¬ (("search_listings" : String) = "price_check") := by decide
  constructor
  · intro hmiss
    rcases hmiss with hmiss | hmiss
    · have hl : strTruthy (updateCtx ctx p).location = false := by
        revert hmiss
        cases strTruthy (updateCtx ctx p).location <;> simp
      simp [handle_user_query, hintent, e1, e2, hl]
    · have hp : strTruthy (updateCtx ctx p).property_type = false := by
        revert hmiss
        cases strTruthy (updateCtx ctx p).property_type <;> simp
      simp [handle_user_query, hintent, e1, e2, hp]
  · intro hl hp hbud
    simp [handle_user_query, hintent, e1, e2, hl, hp, hbud]

theorem search_listings_clarifies_witness :
    (handle_user_query ⟨none, [], [], "[]", "[]"⟩ emptyCtx
      ⟨some "search_listings", some "Jumeirah", some "apartment", none, none, none⟩).2
      = (askBudgetReply none "apartment" "Jumeirah", 0) := by
  have h := (search_listings_clarifies ⟨none, [], [], "[]", "[]"⟩ emptyCtx
    ⟨some "search_listings", some "Jumeirah", some "apartment", none, none, none⟩ rfl).2
    (by decide) (by decide) rfl
  simpa using h

/-! ### Fence-stripping lemmas for the listing parser (C5) -/

lemma pyReplaceEmptyF_nil (pat : List Char) (fuel : Nat) : pyReplaceEmptyF pat fuel [] = [] := by
  cases fuel <;> rfl

lemma pyReplaceEmptyF_cons (pat : List Char) (fuel : Nat) (c : Char) (cs : List Char) :
    pyReplaceEmptyF pat (fuel + 1) (c :: cs) =
      if !pat.isEmpty && pat.isPrefixOf (c :: cs) then
        pyReplaceEmptyF pat fuel (List.drop pat.length (c :: cs))
      else c :: pyReplaceEmptyF pat fuel cs := rfl

lemma hasSub_cons (pat : List Char) (c : Char) (cs : List Char) :
    hasSub pat (c :: cs) = ((!pat.isEmpty && pat.isPrefixOf (c :: cs)) || hasSub pat cs) := rfl

lemma isPrefixOf_length_le : ∀ {l t : List Char}, l.isPrefixOf t = true → l.length ≤ t.length := by
  intro l
  induction l with
  | nil => intro t _; simp
  | cons c cs ih =>
    intro t h
    cases t with
    | nil => simp [List.isPrefixOf] at h
    | cons d ds =>
      simp only [List.isPrefixOf, Bool.and_eq_true] at h
      have := ih h.2
      simp only [List.length_cons]
      omega

lemma isPrefixOf_of_append_left : ∀ (a b t : List Char),
    (a ++ b).isPrefixOf t = true → a.isPrefixOf t = true := by
  intro a
  induction a with
  | nil => intro b t _; cases t <;> rfl
  | cons c cs ih =>
    intro b t h
    cases t with
    | nil => simp [List.isPrefixOf] at h
    | cons d ds =>
      simp only [List.cons_append, List.isPrefixOf, Bool.and_eq_true] at h ⊢
      exact ⟨h.1, ih b ds h.2⟩

lemma pyReplaceEmptyF_no_occ (pat : List Char) : ∀ (s : List Char),
    hasSub pat s = false → ∀ fuel, pyReplaceEmptyF pat fuel s = s := by
  intro s
  induction s with
  | nil => intro _ fuel; exact pyReplaceEmptyF_nil pat fuel
  | cons c cs ih =>
    intro h fuel
    rw [hasSub_cons, Bool.or_eq_false_iff] at h
    cases fuel with
    | zero => rfl
    | succ f =>
      rw [pyReplaceEmptyF_cons, if_neg (by simp [h.1]), ih h.2 f]

lemma pyReplaceEmpty_no_occ (pat s : List Char) (h : hasSub pat s = false) :
    pyReplaceEmpty pat s = s :=
  pyReplaceEmptyF_no_occ pat s h s.length

lemma fenceChars_eq : fenceChars = [btChar, btChar, btChar] := by decide

lemma fenceJsonChars_eq :
    fenceJsonChars = [btChar, btChar, btChar, 'j', 's', 'o', 'n'] := by decide

lemma fenceJson_split : fenceJsonChars = fenceChars ++ ['j', 's', 'o', 'n'] := by decide

lemma hasSub_fenceJson_false (s : List Char) (h : hasSub fenceChars s = false) :
    hasSub fenceJsonChars s = false := by
  induction s with
  | nil => rfl
  | cons c cs ih =>
    rw [hasSub_cons, Bool.or_eq_false_iff] at h
    rw [hasSub_cons, Bool.or_eq_false_iff]
    refine ⟨?_, ih h.2⟩
    cases hx : fenceJsonChars.isPrefixOf (c :: cs) with
    | false => simp [hx]
    | true =>
      exfalso
      rw [fenceJson_split] at hx
      have hpre := isPrefixOf_of_append_left _ _ _ hx
      have h1 := h.1
      rw [hpre] at h1
      revert h1
      decide

lemma no_fenceJson_in_fenced : ∀ (s : List Char), hasSub fenceChars s = false →
    hasSub fenceJsonChars (s ++ fenceChars) = false := by
  intro s
  induction s with
  | nil => intro _; decide
  | cons c cs ih =>
    intro h
    rw [hasSub_cons, Bool.or_eq_false_iff] at h
    have htail := ih h.2
    rw [List.cons_append, hasSub_cons, Bool.or_eq_false_iff]
    refine ⟨?_, htail⟩
    cases hx : fenceJsonChars.isPrefixOf (c :: (cs ++ fenceChars)) with
    | false => simp [hx]
    | true =>
      exfalso
      rcases cs with _ | ⟨d, cs1⟩
      · have hlen := isPrefixOf_length_le hx
        have h7 : fenceJsonChars.length = 7 := by decide
        have h3 : fenceChars.length = 3 := by decide
        simp only [h7, List.length_cons, List.length_append, List.length_nil, h3] at hlen
        omega
      · rcases cs1 with _ | ⟨e, cs2⟩
        · have hlen := isPrefixOf_length_le hx
          have h7 : fenceJsonChars.length = 7 := by decide
          have h3 : fenceChars.length = 3 := by decide
          simp only [h7, List.length_cons, List.length_append, List.length_nil, h3] at hlen
          omega
        · rcases cs2 with _ | ⟨g, cs3⟩
          · have hlen := isPrefixOf_length_le hx
            have h7 : fenceJsonChars.length = 7 := by decide
            have h3 : fenceChars.length = 3 := by decide
            simp only [h7, List.length_cons, List.length_append, List.length_nil, h3] at hlen
            omega
          · rw [fenceJsonChars_eq] at hx
            simp only [List.cons_append, List.isPrefixOf, Bool.and_eq_true, beq_iff_eq] at hx
            obtain ⟨hc1, hd1, he1, _⟩ := hx
            subst hc1
            subst hd1
            subst he1
            have hfp : fenceChars.isPrefixOf (btChar :: btChar :: btChar :: g :: cs3) = true := by
              rw [fenceChars_eq]
              simp [List.isPrefixOf]
            have h1 := h.1
            rw [hfp] at h1
            revert h1
            decide

lemma pyReplaceEmptyF_strip_fence : ∀ (s : List Char) (fuel : Nat),
    hasSub fenceChars s = false → s.length + 3 ≤ fuel →
    pyReplaceEmptyF fenceChars fuel (s ++ fenceChars) = s := by
  intro s
  induction s with
  | nil =>
    intro fuel _ hfuel
    cases fuel with
    | zero => exact absurd hfuel (by omega)
    | succ f =>
      rw [List.nil_append, fenceChars_eq, pyReplaceEmptyF_cons, if_pos (by decide)]
      have hdrop : List.drop (List.length [btChar, btChar, btChar])
          (btChar :: [btChar, btChar]) = [] := by decide
      rw [hdrop]
      exact pyReplaceEmptyF_nil _ f
  | cons c cs ih =>
    intro fuel h hfuel
    rw [hasSub_cons, Bool.or_eq_false_iff] at h
    cases fuel with
    | zero => exact absurd hfuel (by simp only [List.length_cons]; omega)
    | succ f =>
      rw [List.cons_append, pyReplaceEmptyF_cons]
      cases hx : (!fenceChars.isEmpty && fenceChars.isPrefixOf (c :: (cs ++ fenceChars))) with
      | false =>
        rw [if_neg (by simp [hx])]
        congr 1
        exact ih f h.2 (by simp only [List.length_cons] at hfuel; omega)
      | true =>
        rw [if_pos rfl]
        have hpre : fenceChars.isPrefixOf (c :: (cs ++ fenceChars)) = true := by
          rw [Bool.and_eq_true] at hx
          exact hx.2
        have hnc : fenceChars.isPrefixOf (c :: cs) = false := by
          cases hcc : fenceChars.isPrefixOf (c :: cs) with
          | false => rfl
          | true =>
            have h1 := h.1
            rw [hcc] at h1
            revert h1
            decide
        rcases cs with _ | ⟨d, cs1⟩
        · rw [fenceChars_eq] at hpre
          simp only [List.nil_append, List.isPrefixOf, Bool.and_eq_true, beq_iff_eq] at hpre
          obtain ⟨hc1, _⟩ := hpre
          subst hc1
          have hdrop : List.drop fenceChars.length (btChar :: (([] : List Char) ++ fenceChars))
              = [btChar] := by decide
          rw [hdrop]
          exact pyReplaceEmptyF_no_occ fenceChars [btChar] (by decide) f
        · rcases cs1 with _ | ⟨e, cs2⟩
          · rw [fenceChars_eq] at hpre
            simp only [List.cons_append, List.nil_append, List.isPrefixOf,
              Bool.and_eq_true, beq_iff_eq] at hpre
            obtain ⟨hc1, hd1, _⟩ := hpre
            subst hc1
            subst hd1
            have hdrop : List.drop fenceChars.length (btChar :: ([btChar] ++ fenceChars))
                = [btChar, btChar] := by decide
            rw [hdrop]
            exact pyReplaceEmptyF_no_occ fenceChars [btChar, btChar] (by decide) f
          · exfalso
            rw [fenceChars_eq] at hpre
            simp only [List.cons_append, List.isPrefixOf, Bool.and_eq_true, beq_iff_eq] at hpre
            obtain ⟨hc1, hd1, he1, _⟩ := hpre
            subst hc1
            subst hd1
            subst he1
            have hfp : fenceChars.isPrefixOf (btChar :: btChar :: btChar :: cs2) = true := by
              rw [fenceChars_eq]
              simp [List.isPrefixOf]
            rw [hfp] at hnc
            exact Bool.noConfusion hnc

lemma pyReplaceEmpty_strip_fence (s : List Char) (h : hasSub fenceChars s = false) :
    pyReplaceEmpty fenceChars (s ++ fenceChars) = s := by
  unfold pyReplaceEmpty
  apply pyReplaceEmptyF_strip_fence s _ h
  have h3 : fenceChars.length = 3 := by decide
  simp [List.length_append, h3]

lemma replace_fenceJson_fenced (s : List Char) (h : hasSub fenceChars s = false) :
    pyReplaceEmpty fenceJsonChars (fenceJsonChars ++ (s ++ fenceChars)) = s ++ fenceChars := by
  unfold pyReplaceEmpty
  have h7 : fenceJsonChars.length = 7 := by decide
  have hlen : (fenceJsonChars ++ (s ++ fenceChars)).length = ((s ++ fenceChars).length + 6) + 1 := by
    simp only [List.length_append, h7]
    omega
  rw [hlen, fenceJsonChars_eq]
  simp only [List.cons_append, List.nil_append]
  rw [pyReplaceEmptyF_cons, if_pos (by simp [List.isPrefixOf])]
  have hdrop : List.drop (List.length [btChar, btChar, btChar, 'j', 's', 'o', 'n'])
      (btChar :: btChar :: btChar :: 'j' :: 's' :: 'o' :: 'n' :: (s ++ fenceChars))
      = s ++ fenceChars := rfl
  rw [hdrop]
  have hno := no_fenceJson_in_fenced s h
  rw [fenceJsonChars_eq] at hno
  exact pyReplaceEmptyF_no_occ _ _ hno _

lemma clean_json_content_fenced (s : String) (h : hasSub fenceChars s.data = false) :
    clean_json_content ("```json" ++ s ++ "```") = clean_json_content s := by
  unfold clean_json_content
  have hdata : ("```json" ++ s ++ "```").data = fenceJsonChars ++ (s.data ++ fenceChars) := by
    simp [String.data_append, fenceJsonChars, fenceChars, List.append_assoc]
  rw [hdata, replace_fenceJson_fenced s.data h, pyReplaceEmpty_strip_fence s.data h,
    pyReplaceEmpty_no_occ fenceJsonChars s.data (hasSub_fenceJson_false s.data h),
    pyReplaceEmpty_no_occ fenceChars s.data h]

/-- C5 (amended): for a provider response that wraps a payload in
```json fences, where the payload contains no occurrence of ``` itself,
the listing parser yields the same list on the fenced response as on the
unwrapped payload; in particular, when the (cleaned) payload parses as a
JSON array, the fenced response parses to exactly that array. -/
theorem fenced_parse_roundtrip (s : String) (h : hasSub fenceChars s.data = false) :
    parse_listings ("```json" ++ s ++ "```") = parse_listings s
  ∧ ∀ l, json_loads (clean_json_content s) = some (Json.arr l) →
      parse_listings ("```json" ++ s ++ "```") = l := by
  have hc := clean_json_content_fenced s h
  constructor
  · unfold parse_listings
    rw [hc]
  · intro l hl
    unfold parse_listings
    rw [hc, hl]

/-- C5 counterexample to the claim as stated: the payload `["a```b"]` is a
valid JSON array, yet the fenced response parses to `["ab"]` — the
`replace`-based fence stripping also deletes the backtick run inside the
JSON string — which differs from parsing the unwrapped array directly. -/
theorem fenced_parse_roundtrip_counterexample :
    json_loads "[\"a```b\"]" = some (Json.arr [Json.str "a```b"])
  ∧ parse_listings ("```json" ++ "[\"a```b\"]" ++ "```") = [Json.str "ab"]
  ∧ parse_listings ("```json" ++ "[\"a```b\"]" ++ "```") ≠ [Json.str "a```b"] := by
  refine ⟨rfl, rfl, ?_⟩
  intro hcontra
  have heq : ([Json.str "ab"] : List Json) = [Json.str "a```b"] := hcontra
  have : ("ab" : String) = "a```b" := by
    injection heq with h1 _
    injection h1
  exact absurd this (by decide)

theorem fenced_parse_roundtrip_witness :
    parse_listings ("```json" ++ "[1]" ++ "```") = [Json.num "1"] :=
  (fenced_parse_roundtrip "[1]" (by decide)).2 [Json.num "1"] rfl

end Oliv
